import Mathlib

/-!
# Carbon prediction module: shallow embedding

Embedding of the `MLService` class (carbon sequestration predictor, credit
estimator, credit value calculator) and of the `batchPredictCarbon` HTTP
request handler of the carbonroots web application.

JavaScript numbers are modelled as exact rationals (`ℚ`); thrown `Error`s
become `Except String`; the service's singleton state is a constant, since
the coefficient table is set once in the constructor and never mutated.
The `timestamp` field of a prediction result (wall-clock I/O) is omitted.
-/

namespace CarbonRoots

/-- Input record for a carbon prediction (`CarbonPredictionInput`). -/
structure CarbonPredictionInput where
  ndvi : ℚ
  canopyCoverPercent : ℚ
  soilCarbonPercent : ℚ

/-- The fixed linear-model coefficient table (`ModelCoefficients`). -/
structure ModelCoefficients where
  bias : ℚ
  ndvi : ℚ
  canopyCoverPercent : ℚ
  soilCarbonPercent : ℚ

/-- The trained model coefficients installed by the `MLService` constructor. -/
def modelCoefficients : ModelCoefficients where
  bias := -0.12420730589741327
  ndvi := 24.86822411958432
  canopyCoverPercent := 0.15040989198704635
  soilCarbonPercent := 6.0526982817020265

/-- The fixed model version string set by the `MLService` constructor. -/
def modelVersion : String := "1.0"

/-- Result record of a prediction (`CarbonPredictionResult`), without the
wall-clock `timestamp` field. -/
structure CarbonPredictionResult where
  carbonSequestration : ℚ
  confidence : ℚ
  modelUsed : String
  inputData : CarbonPredictionInput

/-- `MLService.calculateCarbonSequestration`: the linear model. -/
def calculateCarbonSequestration (input : CarbonPredictionInput) : ℚ :=
  modelCoefficients.bias
    + modelCoefficients.ndvi * input.ndvi
    + modelCoefficients.canopyCoverPercent * input.canopyCoverPercent
    + modelCoefficients.soilCarbonPercent * input.soilCarbonPercent

/-- `MLService.validateInput`: the collected list of range-violation
messages (the source pushes onto `errors` in this order and then throws
when the list is nonempty). -/
def validateInput (input : CarbonPredictionInput) : List String :=
  (if input.ndvi < 0.1 ∨ input.ndvi > 0.9 then
    ["NDVI must be between 0.1 and 0.9"] else [])
  ++ (if input.canopyCoverPercent < 0 ∨ input.canopyCoverPercent > 100 then
    ["Canopy cover percentage must be between 0 and 100"] else [])
  ++ (if input.soilCarbonPercent < 0.5 ∨ input.soilCarbonPercent > 8 then
    ["Soil carbon percentage must be between 0.5 and 8"] else [])

/-- The value of the local variable `confidence` in
`MLService.calculateConfidence` just before the final
`Math.max(0.7, confidence)` is applied (the three successive mutations
written in single-assignment form). -/
def confidenceBeforeFloor (input : CarbonPredictionInput) : ℚ :=
  let c1 : ℚ := 1.0
  let c2 := if input.ndvi < 0.2 ∨ input.ndvi > 0.8 then c1 * 0.9 else c1
  let c3 := if input.canopyCoverPercent < 10 ∨ input.canopyCoverPercent > 90 then
    c2 * 0.9 else c2
  if input.soilCarbonPercent < 1 ∨ input.soilCarbonPercent > 7 then c3 * 0.9 else c3

/-- `MLService.calculateConfidence`: the boundary-proximity heuristic with
its final `Math.max(0.7, confidence)` floor. -/
def calculateConfidence (input : CarbonPredictionInput) : ℚ :=
  max 0.7 (confidenceBeforeFloor input)

/-- `MLService.predictCarbonSequestration`: validate, then build the result
record; a nonempty violation list becomes the thrown
`Invalid input parameters: ...` error. -/
def predictCarbonSequestration (input : CarbonPredictionInput) :
    Except String CarbonPredictionResult :=
  if (validateInput input).length > 0 then
    Except.error
      ("Invalid input parameters: " ++ String.intercalate ", " (validateInput input))
  else
    Except.ok
      { carbonSequestration := calculateCarbonSequestration input
        confidence := calculateConfidence input
        modelUsed := "Linear Regression v" ++ modelVersion
        inputData := input }

/-- `MLService.batchPredict`: `inputs.map(input => this.predictCarbonSequestration(input))`,
with the JavaScript exception propagation of `map` rendered as `mapM` in
the `Except` monad. -/
def batchPredict (inputs : List CarbonPredictionInput) :
    Except String (List CarbonPredictionResult) :=
  inputs.mapM predictCarbonSequestration

/-- Result record of `MLService.estimateCarbonCredits`. -/
structure CreditEstimate where
  totalCredits : ℚ
  annualCredits : ℚ
  totalSequestration : ℚ

/-- `MLService.estimateCarbonCredits` (the source gives
`projectDurationYears` the default value 1 at the call boundary). -/
def estimateCarbonCredits (carbonSequestration areaHectares projectDurationYears : ℚ) :
    Except String CreditEstimate :=
  if areaHectares ≤ 0 then
    Except.error "Area must be greater than 0"
  else if projectDurationYears ≤ 0 then
    Except.error "Project duration must be greater than 0"
  else
    let totalSequestration := carbonSequestration * areaHectares * projectDurationYears
    let annualCredits := carbonSequestration * areaHectares
    let totalCredits := annualCredits * projectDurationYears
    Except.ok
      { totalCredits := totalCredits
        annualCredits := annualCredits
        totalSequestration := totalSequestration }

/-- Result record of `MLService.calculateCreditValue`. -/
structure CreditValue where
  valueUSD : ℚ
  credits : ℚ
  pricePerCredit : ℚ

/-- `MLService.calculateCreditValue` (the source gives `pricePerCredit`
the default value 15 at the call boundary). -/
def calculateCreditValue (credits pricePerCredit : ℚ) : Except String CreditValue :=
  if credits < 0 then
    Except.error "Credits cannot be negative"
  else if pricePerCredit ≤ 0 then
    Except.error "Price per credit must be greater than 0"
  else
    Except.ok
      { valueUSD := credits * pricePerCredit
        credits := credits
        pricePerCredit := pricePerCredit }

/-! ## The `batchPredictCarbon` request handler (`server/routes/carbon.ts`)

The handler is modelled as a pure function of the request's bearer token,
the auth service's user lookup (a parameter, since `authService` is an
external collaborator), the parsed `predictions` body field, and the
single-item predictor used by `mlService.batchPredict` (also a parameter,
so that "no prediction is computed" is expressible as independence from
it). `predictions : Option (List _)` is `none` when the body field is
missing or not an array. Database storage (its failure is swallowed by the
source) is omitted. -/

/-- The `user.type` discriminator of the auth service's user records. -/
inductive UserType
  | farmer
  | admin

/-- The slice of the auth service's user record the handler reads. -/
structure User where
  type : UserType

/-- An HTTP request to the batch-predict route: the bearer token (after
`replace("Bearer ", "")`) and the parsed `predictions` body field. -/
structure BatchRequest where
  token : Option String
  predictions : Option (List CarbonPredictionInput)

/-- The JSON responses the handler can produce: an HTTP status, the
`success` flag, and the optional `message`, `count` and `predictions`
payload fields. -/
structure BatchResponse where
  status : Nat
  success : Bool
  message : Option String
  count : Option Nat
  predictions : Option (List CarbonPredictionResult)

/-- JavaScript `String.prototype.includes`, via `splitOn`: a pattern
occurs in `s` exactly when splitting on it yields at least two pieces. -/
def strIncludes (s pat : String) : Bool :=
  (s.splitOn pat).length ≥ 2

/-- The `batchPredictCarbon` request handler. Checks run in source order:
missing/empty token → 401; unknown user or non-farmer → 403; missing,
non-array or empty `predictions` → 400; more than 100 elements → 400;
otherwise `batchPredict` runs, a thrown `Invalid input parameters` error
is mapped to 400 by the catch block, any other failure to 500. -/
def batchPredictCarbon (getUserByToken : String → Option User)
    (pred : CarbonPredictionInput → Except String CarbonPredictionResult)
    (req : BatchRequest) : BatchResponse :=
  match req.token with
  | none =>
      { status := 401, success := false,
        message := some "Authentication token required",
        count := none, predictions := none }
  | some token =>
    if token = "" then
      { status := 401, success := false,
        message := some "Authentication token required",
        count := none, predictions := none }
    else
      match getUserByToken token with
      | none =>
          { status := 403, success := false,
            message := some "Farmer access required",
            count := none, predictions := none }
      | some user =>
        match user.type with
        | UserType.admin =>
            { status := 403, success := false,
              message := some "Farmer access required",
              count := none, predictions := none }
        | UserType.farmer =>
          match req.predictions with
          | none =>
              { status := 400, success := false,
                message := some "Predictions array is required",
                count := none, predictions := none }
          | some predictionRequests =>
            if predictionRequests.length = 0 then
              { status := 400, success := false,
                message := some "Predictions array is required",
                count := none, predictions := none }
            else if predictionRequests.length > 100 then
              { status := 400, success := false,
                message := some "Maximum 100 predictions per batch",
                count := none, predictions := none }
            else
              match predictionRequests.mapM pred with
              | Except.ok results =>
                  { status := 200, success := true, message := none,
                    count := some results.length, predictions := some results }
              | Except.error e =>
                  if strIncludes e "Invalid input parameters" then
                    { status := 400, success := false, message := some e,
                      count := none, predictions := none }
                  else
                    { status := 500, success := false,
                      message := some "Failed to process batch predictions",
                      count := none, predictions := none }

/-! ## Helper lemmas -/

lemma validateInput_eq_nil_iff (input : CarbonPredictionInput) :
    validateInput input = [] ↔
      0.1 ≤ input.ndvi ∧ input.ndvi ≤ 0.9 ∧
      0 ≤ input.canopyCoverPercent ∧ input.canopyCoverPercent ≤ 100 ∧
      0.5 ≤ input.soilCarbonPercent ∧ input.soilCarbonPercent ≤ 8 := by
  unfold validateInput
  constructor
  · intro h
    rw [List.append_eq_nil, List.append_eq_nil] at h
    obtain ⟨⟨hA, hB⟩, hC⟩ := h
    have h1 : ¬(input.ndvi < 0.1 ∨ input.ndvi > 0.9) := by
      intro hc
      rw [if_pos hc] at hA
      simp at hA
    have h2 : ¬(input.canopyCoverPercent < 0 ∨ input.canopyCoverPercent > 100) := by
      intro hc
      rw [if_pos hc] at hB
      simp at hB
    have h3 : ¬(input.soilCarbonPercent < 0.5 ∨ input.soilCarbonPercent > 8) := by
      intro hc
      rw [if_pos hc] at hC
      simp at hC
    push_neg at h1 h2 h3
    exact ⟨h1.1, h1.2, h2.1, h2.2, h3.1, h3.2⟩
  · rintro ⟨a1, a2, a3, a4, a5, a6⟩
    rw [if_neg (by push_neg; exact ⟨a1, a2⟩), if_neg (by push_neg; exact ⟨a3, a4⟩),
      if_neg (by push_neg; exact ⟨a5, a6⟩)]
    rfl

lemma mem_ite_singleton {c : Prop} [Decidable c] (s m : String) :
    (s ∈ if c then [m] else []) ↔ c ∧ s = m := by
  split_ifs with h <;> simp [h]

lemma mem_validateInput_iff (s : String) (input : CarbonPredictionInput) :
    s ∈ validateInput input ↔
      ((input.ndvi < 0.1 ∨ input.ndvi > 0.9) ∧
        s = "NDVI must be between 0.1 and 0.9")
      ∨ ((input.canopyCoverPercent < 0 ∨ input.canopyCoverPercent > 100) ∧
        s = "Canopy cover percentage must be between 0 and 100")
      ∨ ((input.soilCarbonPercent < 0.5 ∨ input.soilCarbonPercent > 8) ∧
        s = "Soil carbon percentage must be between 0.5 and 8") := by
  unfold validateInput
  rw [List.mem_append, List.mem_append, mem_ite_singleton, mem_ite_singleton,
    mem_ite_singleton, or_assoc]

lemma ndviMsg_mem_iff (input : CarbonPredictionInput) :
    "NDVI must be between 0.1 and 0.9" ∈ validateInput input ↔
      (input.ndvi < 0.1 ∨ input.ndvi > 0.9) := by
  rw [mem_validateInput_iff]
  constructor
  · rintro (⟨h, -⟩ | ⟨-, h⟩ | ⟨-, h⟩)
    · exact h
    · exact absurd h (by decide)
    · exact absurd h (by decide)
  · exact fun h => Or.inl ⟨h, rfl⟩

lemma canopyMsg_mem_iff (input : CarbonPredictionInput) :
    "Canopy cover percentage must be between 0 and 100" ∈ validateInput input ↔
      (input.canopyCoverPercent < 0 ∨ input.canopyCoverPercent > 100) := by
  rw [mem_validateInput_iff]
  constructor
  · rintro (⟨-, h⟩ | ⟨h, -⟩ | ⟨-, h⟩)
    · exact absurd h (by decide)
    · exact h
    · exact absurd h (by decide)
  · exact fun h => Or.inr (Or.inl ⟨h, rfl⟩)

lemma soilMsg_mem_iff (input : CarbonPredictionInput) :
    "Soil carbon percentage must be between 0.5 and 8" ∈ validateInput input ↔
      (input.soilCarbonPercent < 0.5 ∨ input.soilCarbonPercent > 8) := by
  rw [mem_validateInput_iff]
  constructor
  · rintro (⟨-, h⟩ | ⟨-, h⟩ | ⟨h, -⟩)
    · exact absurd h (by decide)
    · exact absurd h (by decide)
    · exact h
  · exact fun h => Or.inr (Or.inr ⟨h, rfl⟩)

lemma predict_ok_of_valid (input : CarbonPredictionInput)
    (h : validateInput input = []) :
    predictCarbonSequestration input = Except.ok
      { carbonSequestration := calculateCarbonSequestration input
        confidence := calculateConfidence input
        modelUsed := "Linear Regression v" ++ modelVersion
        inputData := input } := by
  unfold predictCarbonSequestration
  rw [h]
  rfl

lemma predict_error_of_invalid (input : CarbonPredictionInput)
    (h : validateInput input ≠ []) :
    predictCarbonSequestration input =
      Except.error
        ("Invalid input parameters: " ++ String.intercalate ", " (validateInput input)) := by
  unfold predictCarbonSequestration
  rw [if_pos (List.length_pos.mpr h)]

lemma predict_ok_elim (input : CarbonPredictionInput) (r : CarbonPredictionResult)
    (h : predictCarbonSequestration input = Except.ok r) :
    r.carbonSequestration = calculateCarbonSequestration input ∧
    r.confidence = calculateConfidence input ∧ validateInput input = [] := by
  unfold predictCarbonSequestration at h
  split at h
  · simp at h
  · rename_i hlen
    rw [Except.ok.injEq] at h
    subst h
    exact ⟨rfl, rfl, List.length_eq_zero.mp (Nat.eq_zero_of_not_pos hlen)⟩

/-! ## Claim theorems -/

/-- C1: for every input whose three fields satisfy the validation bounds
(0.1 ≤ ndvi ≤ 0.9, 0 ≤ canopyCoverPercent ≤ 100, 0.5 ≤ soilCarbonPercent ≤ 8),
`predictCarbonSequestration` succeeds and its `carbonSequestration` is the
unclamped linear combination with the fixed trained coefficients. -/
theorem c1_predict_linear_model (input : CarbonPredictionInput)
    (h1 : 0.1 ≤ input.ndvi) (h2 : input.ndvi ≤ 0.9)
    (h3 : 0 ≤ input.canopyCoverPercent) (h4 : input.canopyCoverPercent ≤ 100)
    (h5 : 0.5 ≤ input.soilCarbonPercent) (h6 : input.soilCarbonPercent ≤ 8) :
    ∃ r, predictCarbonSequestration input = Except.ok r ∧
      r.carbonSequestration =
        -0.12420730589741327 + 24.86822411958432 * input.ndvi
          + 0.15040989198704635 * input.canopyCoverPercent
          + 6.0526982817020265 * input.soilCarbonPercent := by
  refine ⟨_, predict_ok_of_valid input
    ((validateInput_eq_nil_iff input).mpr ⟨h1, h2, h3, h4, h5, h6⟩), ?_⟩
  show calculateCarbonSequestration input = _
  unfold calculateCarbonSequestration modelCoefficients
  norm_num

/-- Witness for C1 at the in-range input (0.5, 50, 4). -/
theorem c1_predict_linear_model_witness :
    ∃ r, predictCarbonSequestration ⟨0.5, 50, 4⟩ = Except.ok r ∧
      r.carbonSequestration =
        -0.12420730589741327 + 24.86822411958432 * (0.5 : ℚ)
          + 0.15040989198704635 * (50 : ℚ) + 6.0526982817020265 * (4 : ℚ) :=
  c1_predict_linear_model ⟨0.5, 50, 4⟩ (by norm_num) (by norm_num) (by norm_num)
    (by norm_num) (by norm_num) (by norm_num)

/-- C4 counterexample: at (0.7, 75, 3.5) the returned `carbonSequestration`
is exactly 49.748735462797179730 and therefore does not equal 49.55 to two
decimal places (it lies outside [49.545, 49.555]). -/
theorem c4_example_counterexample :
    ∃ r, predictCarbonSequestration ⟨0.7, 75, 3.5⟩ = Except.ok r ∧
      r.carbonSequestration = 4974873546279717973 / 100000000000000000 ∧
      ¬ (49.545 ≤ r.carbonSequestration ∧ r.carbonSequestration ≤ 49.555) := by
  refine ⟨_, predict_ok_of_valid ⟨0.7, 75, 3.5⟩
    ((validateInput_eq_nil_iff _).mpr (by norm_num)), ?_, ?_⟩
  · show calculateCarbonSequestration _ = _
    unfold calculateCarbonSequestration modelCoefficients
    norm_num
  · show ¬ (49.545 ≤ calculateCarbonSequestration _ ∧
      calculateCarbonSequestration _ ≤ 49.555)
    unfold calculateCarbonSequestration modelCoefficients
    norm_num

/-- C4 amended: at (0.7, 75, 3.5) the returned `carbonSequestration` equals
the linear combination of the coefficients with the inputs, which is
approximately 49.75 (not 49.55) when asserted to two decimal places. -/
theorem c4_example_amended :
    ∃ r, predictCarbonSequestration ⟨0.7, 75, 3.5⟩ = Except.ok r ∧
      r.carbonSequestration =
        -0.12420730589741327 + 24.86822411958432 * (0.7 : ℚ)
          + 0.15040989198704635 * (75 : ℚ) + 6.0526982817020265 * (3.5 : ℚ) ∧
      49.745 ≤ r.carbonSequestration ∧ r.carbonSequestration ≤ 49.755 := by
  refine ⟨_, predict_ok_of_valid ⟨0.7, 75, 3.5⟩
    ((validateInput_eq_nil_iff _).mpr (by norm_num)), ?_, ?_, ?_⟩ <;>
  · show _
    unfold calculateCarbonSequestration modelCoefficients
    norm_num

/-- C2: the confidence returned by `predictCarbonSequestration` starts at
1.0, is multiplied by 0.9 once for each of the three independent
near-boundary conditions (compounding multiplicatively), is floored as
`max 0.7 _`, always lies in [0.7, 1.0], and equals
max(0.7, 0.9³) = 0.729 when all three conditions trigger. -/
theorem c2_confidence_heuristic (input : CarbonPredictionInput) :
    calculateConfidence input =
      max 0.7 ((if input.ndvi < 0.2 ∨ input.ndvi > 0.8 then (0.9 : ℚ) else 1)
        * (if input.canopyCoverPercent < 10 ∨ input.canopyCoverPercent > 90 then
            (0.9 : ℚ) else 1)
        * (if input.soilCarbonPercent < 1 ∨ input.soilCarbonPercent > 7 then
            (0.9 : ℚ) else 1))
    ∧ 0.7 ≤ calculateConfidence input ∧ calculateConfidence input ≤ 1
    ∧ ((input.ndvi < 0.2 ∨ input.ndvi > 0.8) →
       (input.canopyCoverPercent < 10 ∨ input.canopyCoverPercent > 90) →
       (input.soilCarbonPercent < 1 ∨ input.soilCarbonPercent > 7) →
       calculateConfidence input = max 0.7 ((0.9 : ℚ) ^ 3) ∧
       calculateConfidence input = 0.729)
    ∧ (∀ r, predictCarbonSequestration input = Except.ok r →
        r.confidence = calculateConfidence input) := by
  refine ⟨?_, le_max_left 0.7 _, ?_, ?_, ?_⟩
  · unfold calculateConfidence confidenceBeforeFloor
    split_ifs <;> norm_num
  · unfold calculateConfidence confidenceBeforeFloor
    split_ifs <;> norm_num [max_def]
  · intro hc1 hc2 hc3
    have hb : confidenceBeforeFloor input = 0.729 := by
      unfold confidenceBeforeFloor
      rw [if_pos hc3, if_pos hc2, if_pos hc1]
      norm_num
    unfold calculateConfidence
    rw [hb]
    norm_num [max_def]
  · intro r hr
    exact (predict_ok_elim input r hr).2.1

/-- Witness for C2 at (0.15, 5, 0.8), where all three near-boundary
conditions trigger. -/
theorem c2_confidence_heuristic_witness :
    calculateConfidence ⟨0.15, 5, 0.8⟩ = max 0.7 ((0.9 : ℚ) ^ 3) ∧
    calculateConfidence ⟨0.15, 5, 0.8⟩ = 0.729 :=
  (c2_confidence_heuristic ⟨0.15, 5, 0.8⟩).2.2.2.1
    (Or.inl (by norm_num)) (Or.inl (by norm_num)) (Or.inl (by norm_num))

/-- C9: the pre-floor confidence is always one of 1, 0.9, 0.81, 0.729;
since even 0.9³ = 0.729 exceeds 0.7, the `max 0.7 _` floor never changes
the result, and every returned confidence is at least 0.729 (strictly
above the documented 0.7 minimum) and lies in {0.729, 0.81, 0.9, 1}. -/
theorem c9_confidence_floor_never_binds (input : CarbonPredictionInput) :
    (confidenceBeforeFloor input = 1 ∨ confidenceBeforeFloor input = 0.9 ∨
      confidenceBeforeFloor input = 0.81 ∨ confidenceBeforeFloor input = 0.729)
    ∧ 0.7 < confidenceBeforeFloor input
    ∧ calculateConfidence input = confidenceBeforeFloor input
    ∧ (∀ r, predictCarbonSequestration input = Except.ok r →
        0.729 ≤ r.confidence ∧
        (r.confidence = 1 ∨ r.confidence = 0.9 ∨ r.confidence = 0.81 ∨
          r.confidence = 0.729)) := by
  have hmem : confidenceBeforeFloor input = 1 ∨ confidenceBeforeFloor input = 0.9 ∨
      confidenceBeforeFloor input = 0.81 ∨ confidenceBeforeFloor input = 0.729 := by
    unfold confidenceBeforeFloor
    split_ifs <;> norm_num
  have hgt : 0.7 < confidenceBeforeFloor input := by
    rcases hmem with h | h | h | h <;> rw [h] <;> norm_num
  have hfloor : calculateConfidence input = confidenceBeforeFloor input :=
    max_eq_right (le_of_lt hgt)
  refine ⟨hmem, hgt, hfloor, ?_⟩
  intro r hr
  rw [(predict_ok_elim input r hr).2.1, hfloor]
  constructor
  · rcases hmem with h | h | h | h <;> rw [h] <;> norm_num
  · exact hmem

/-- Witness for C9 at the mid-range input (0.5, 50, 4). -/
theorem c9_confidence_floor_never_binds_witness :
    0.729 ≤ calculateConfidence ⟨0.5, 50, 4⟩ ∧
    (calculateConfidence ⟨0.5, 50, 4⟩ = 1 ∨ calculateConfidence ⟨0.5, 50, 4⟩ = 0.9 ∨
      calculateConfidence ⟨0.5, 50, 4⟩ = 0.81 ∨
      calculateConfidence ⟨0.5, 50, 4⟩ = 0.729) :=
  (c9_confidence_floor_never_binds ⟨0.5, 50, 4⟩).2.2.2
    { carbonSequestration := calculateCarbonSequestration ⟨0.5, 50, 4⟩
      confidence := calculateConfidence ⟨0.5, 50, 4⟩
      modelUsed := "Linear Regression v" ++ modelVersion
      inputData := ⟨0.5, 50, 4⟩ }
    (predict_ok_of_valid ⟨0.5, 50, 4⟩ ((validateInput_eq_nil_iff _).mpr (by norm_num)))

/-- C3: `predictCarbonSequestration` fails exactly when one of the three
range bounds is violated; the error carries the joined list of every
violated bound's message, and each message appears in the violation list
exactly when its bound is violated. -/
theorem c3_validation_error_iff (input : CarbonPredictionInput) :
    ((∃ r, predictCarbonSequestration input = Except.ok r) ↔
      (0.1 ≤ input.ndvi ∧ input.ndvi ≤ 0.9 ∧
       0 ≤ input.canopyCoverPercent ∧ input.canopyCoverPercent ≤ 100 ∧
       0.5 ≤ input.soilCarbonPercent ∧ input.soilCarbonPercent ≤ 8))
    ∧ (∀ e, predictCarbonSequestration input = Except.error e →
        e = "Invalid input parameters: " ++
          String.intercalate ", " (validateInput input))
    ∧ ("NDVI must be between 0.1 and 0.9" ∈ validateInput input ↔
        (input.ndvi < 0.1 ∨ input.ndvi > 0.9))
    ∧ ("Canopy cover percentage must be between 0 and 100" ∈ validateInput input ↔
        (input.canopyCoverPercent < 0 ∨ input.canopyCoverPercent > 100))
    ∧ ("Soil carbon percentage must be between 0.5 and 8" ∈ validateInput input ↔
        (input.soilCarbonPercent < 0.5 ∨ input.soilCarbonPercent > 8)) := by
  refine ⟨⟨?_, ?_⟩, ?_, ndviMsg_mem_iff input, canopyMsg_mem_iff input,
    soilMsg_mem_iff input⟩
  · rintro ⟨r, hr⟩
    exact (validateInput_eq_nil_iff input).mp (predict_ok_elim input r hr).2.2
  · intro hb
    exact ⟨_, predict_ok_of_valid input ((validateInput_eq_nil_iff input).mpr hb)⟩
  · intro e he
    unfold predictCarbonSequestration at he
    split at he
    · rw [Except.error.injEq] at he
      exact he.symm
    · simp at he

/-- Witness for C3: ndvi = 1.5 puts the NDVI message in the violation
list; out-of-range canopy and soil together put both of their messages in
the violation list. -/
theorem c3_validation_error_iff_witness :
    "NDVI must be between 0.1 and 0.9" ∈ validateInput ⟨1.5, 75, 3.5⟩ ∧
    "Canopy cover percentage must be between 0 and 100" ∈ validateInput ⟨0.5, 150, 10⟩ ∧
    "Soil carbon percentage must be between 0.5 and 8" ∈ validateInput ⟨0.5, 150, 10⟩ :=
  ⟨(c3_validation_error_iff ⟨1.5, 75, 3.5⟩).2.2.1.mpr (Or.inr (by norm_num)),
   (c3_validation_error_iff ⟨0.5, 150, 10⟩).2.2.2.1.mpr (Or.inr (by norm_num)),
   (c3_validation_error_iff ⟨0.5, 150, 10⟩).2.2.2.2.mpr (Or.inr (by norm_num))⟩

/-- C5: `estimateCarbonCredits` fails exactly when the area or the
duration is nonpositive; otherwise `annualCredits = sequestration × area`,
`totalCredits = annualCredits × duration`, and `totalSequestration =
sequestration × area × duration`, which is numerically identical to
`totalCredits`; at (10, 5, 2) it returns (100, 50, 100), and a zero area
always fails. -/
theorem c5_estimate_credits (c a d : ℚ) :
    ((∃ r, estimateCarbonCredits c a d = Except.ok r) ↔ (0 < a ∧ 0 < d))
    ∧ (∀ r, estimateCarbonCredits c a d = Except.ok r →
        r.annualCredits = c * a ∧ r.totalCredits = r.annualCredits * d ∧
        r.totalSequestration = c * a * d ∧ r.totalSequestration = r.totalCredits)
    ∧ estimateCarbonCredits 10 5 2 =
        Except.ok { totalCredits := 100, annualCredits := 50, totalSequestration := 100 }
    ∧ (∀ x : ℚ, estimateCarbonCredits x 0 1 =
        Except.error "Area must be greater than 0") := by
  refine ⟨⟨?_, ?_⟩, ?_, ?_, ?_⟩
  · rintro ⟨r, hr⟩
    unfold estimateCarbonCredits at hr
    by_cases h1 : a ≤ 0
    · rw [if_pos h1] at hr
      exact absurd hr (by simp)
    · rw [if_neg h1] at hr
      by_cases h2 : d ≤ 0
      · rw [if_pos h2] at hr
        exact absurd hr (by simp)
      · exact ⟨not_le.mp h1, not_le.mp h2⟩
  · rintro ⟨h1, h2⟩
    refine ⟨⟨c * a * d, c * a, c * a * d⟩, ?_⟩
    unfold estimateCarbonCredits
    rw [if_neg (not_le.mpr h1), if_neg (not_le.mpr h2)]
  · intro r hr
    unfold estimateCarbonCredits at hr
    by_cases h1 : a ≤ 0
    · rw [if_pos h1] at hr
      exact absurd hr (by simp)
    · rw [if_neg h1] at hr
      by_cases h2 : d ≤ 0
      · rw [if_pos h2] at hr
        exact absurd hr (by simp)
      · rw [if_neg h2] at hr
        simp only [Except.ok.injEq] at hr
        subst hr
        exact ⟨rfl, rfl, rfl, rfl⟩
  · unfold estimateCarbonCredits
    rw [if_neg (by norm_num), if_neg (by norm_num)]
    norm_num
  · intro x
    unfold estimateCarbonCredits
    rw [if_pos le_rfl]

/-- Witness for C5: the field equations at the concrete call (10, 5, 2). -/
theorem c5_estimate_credits_witness :
    (⟨100, 50, 100⟩ : CreditEstimate).annualCredits = 10 * 5 ∧
    (⟨100, 50, 100⟩ : CreditEstimate).totalCredits =
      (⟨100, 50, 100⟩ : CreditEstimate).annualCredits * 2 ∧
    (⟨100, 50, 100⟩ : CreditEstimate).totalSequestration = 10 * 5 * 2 ∧
    (⟨100, 50, 100⟩ : CreditEstimate).totalSequestration =
      (⟨100, 50, 100⟩ : CreditEstimate).totalCredits :=
  (c5_estimate_credits 10 5 2).2.1 ⟨100, 50, 100⟩ (c5_estimate_credits 10 5 2).2.2.1

/-- C6: `calculateCreditValue` fails exactly when credits are negative or
the price is nonpositive; otherwise it returns `valueUSD = credits × price`
with both arguments echoed unchanged; at (100, 15) it returns
(1500, 100, 15), and (-1, 15) fails. -/
theorem c6_calculate_value (credits price : ℚ) :
    ((∃ r, calculateCreditValue credits price = Except.ok r) ↔
      (0 ≤ credits ∧ 0 < price))
    ∧ (∀ r, calculateCreditValue credits price = Except.ok r →
        r.valueUSD = credits * price ∧ r.credits = credits ∧
        r.pricePerCredit = price)
    ∧ calculateCreditValue 100 15 =
        Except.ok { valueUSD := 1500, credits := 100, pricePerCredit := 15 }
    ∧ calculateCreditValue (-1) 15 = Except.error "Credits cannot be negative" := by
  refine ⟨⟨?_, ?_⟩, ?_, ?_, ?_⟩
  · rintro ⟨r, hr⟩
    unfold calculateCreditValue at hr
    by_cases h1 : credits < 0
    · rw [if_pos h1] at hr
      exact absurd hr (by simp)
    · rw [if_neg h1] at hr
      by_cases h2 : price ≤ 0
      · rw [if_pos h2] at hr
        exact absurd hr (by simp)
      · exact ⟨not_lt.mp h1, not_le.mp h2⟩
  · rintro ⟨h1, h2⟩
    refine ⟨⟨credits * price, credits, price⟩, ?_⟩
    unfold calculateCreditValue
    rw [if_neg (not_lt.mpr h1), if_neg (not_le.mpr h2)]
  · intro r hr
    unfold calculateCreditValue at hr
    by_cases h1 : credits < 0
    · rw [if_pos h1] at hr
      exact absurd hr (by simp)
    · rw [if_neg h1] at hr
      by_cases h2 : price ≤ 0
      · rw [if_pos h2] at hr
        exact absurd hr (by simp)
      · rw [if_neg h2] at hr
        simp only [Except.ok.injEq] at hr
        subst hr
        exact ⟨rfl, rfl, rfl⟩
  · unfold calculateCreditValue
    rw [if_neg (by norm_num), if_neg (by norm_num)]
    norm_num
  · unfold calculateCreditValue
    rw [if_pos (by norm_num)]

/-- Witness for C6: the field equations at the concrete call (100, 15). -/
theorem c6_calculate_value_witness :
    (⟨1500, 100, 15⟩ : CreditValue).valueUSD = 100 * 15 ∧
    (⟨1500, 100, 15⟩ : CreditValue).credits = 100 ∧
    (⟨1500, 100, 15⟩ : CreditValue).pricePerCredit = 15 :=
  (c6_calculate_value 100 15).2.1 ⟨1500, 100, 15⟩ (c6_calculate_value 100 15).2.2.1

/-- C7: on a list of all-valid inputs, `batchPredict` succeeds with a list
of the input list's length whose elementwise `Except.ok` image is exactly
the elementwise map of `predictCarbonSequestration` over the inputs, in
input order. -/
theorem c7_batch_predict_is_map (inputs : List CarbonPredictionInput)
    (h : ∀ input ∈ inputs,
      0.1 ≤ input.ndvi ∧ input.ndvi ≤ 0.9 ∧
      0 ≤ input.canopyCoverPercent ∧ input.canopyCoverPercent ≤ 100 ∧
      0.5 ≤ input.soilCarbonPercent ∧ input.soilCarbonPercent ≤ 8) :
    ∃ rs, batchPredict inputs = Except.ok rs ∧ rs.length = inputs.length ∧
      rs.map Except.ok = inputs.map predictCarbonSequestration := by
  induction inputs with
  | nil => exact ⟨[], rfl, rfl, rfl⟩
  | cons a l ih =>
    obtain ⟨rs, hrs, hlen, hmap⟩ := ih fun i hi => h i (List.mem_cons_of_mem a hi)
    have ha := predict_ok_of_valid a
      ((validateInput_eq_nil_iff a).mpr (h a (List.mem_cons_self a l)))
    refine ⟨⟨calculateCarbonSequestration a, calculateConfidence a,
      "Linear Regression v" ++ modelVersion, a⟩ :: rs, ?_, ?_, ?_⟩
    · unfold batchPredict at hrs ⊢
      rw [List.mapM_cons, ha, hrs]
      rfl
    · simp [hlen]
    · simp [List.map_cons, ha, hmap]

/-- Witness for C7 on the singleton all-valid batch [(0.5, 50, 4)]. -/
theorem c7_batch_predict_is_map_witness :
    ∃ rs, batchPredict [⟨0.5, 50, 4⟩] = Except.ok rs ∧
      rs.length = ([⟨0.5, 50, 4⟩] : List CarbonPredictionInput).length ∧
      rs.map Except.ok = [⟨0.5, 50, 4⟩].map predictCarbonSequestration :=
  c7_batch_predict_is_map [⟨0.5, 50, 4⟩] (by
    intro i hi
    rw [List.mem_singleton] at hi
    subst hi
    norm_num)

/-- C8: for an authenticated farmer request whose `predictions` array has
more than 100 elements, the batch handler responds 400 with the cap
message, and the response does not depend on the prediction function — so
the rejection happens before any prediction is computed. -/
theorem c8_batch_cap_rejects_before_compute
    (getUserByToken : String → Option User)
    (pred pred' : CarbonPredictionInput → Except String CarbonPredictionResult)
    (req : BatchRequest) (tk : String) (u : User)
    (l : List CarbonPredictionInput)
    (htk : req.token = some tk) (hne : tk ≠ "")
    (hu : getUserByToken tk = some u) (hf : u.type = UserType.farmer)
    (hp : req.predictions = some l) (hlen : l.length > 100) :
    batchPredictCarbon getUserByToken pred req =
      ⟨400, false, some "Maximum 100 predictions per batch", none, none⟩
    ∧ batchPredictCarbon getUserByToken pred req =
        batchPredictCarbon getUserByToken pred' req := by
  have h0 : ¬ l.length = 0 := by omega
  have key : ∀ p : CarbonPredictionInput → Except String CarbonPredictionResult,
      batchPredictCarbon getUserByToken p req =
        ⟨400, false, some "Maximum 100 predictions per batch", none, none⟩ := by
    intro p
    simp only [batchPredictCarbon, htk, hu, hf, hp, if_neg hne, if_neg h0,
      if_pos hlen]
  exact ⟨key pred, (key pred).trans (key pred').symm⟩

/-- Witness for C8: a 101-element batch from an authenticated farmer is
rejected with the cap message, identically for two different predictors. -/
theorem c8_batch_cap_rejects_before_compute_witness :
    batchPredictCarbon (fun _ => some ⟨UserType.farmer⟩) predictCarbonSequestration
      ⟨some "t", some (List.replicate 101 ⟨0.5, 50, 4⟩)⟩ =
      ⟨400, false, some "Maximum 100 predictions per batch", none, none⟩
    ∧ batchPredictCarbon (fun _ => some ⟨UserType.farmer⟩) predictCarbonSequestration
        ⟨some "t", some (List.replicate 101 ⟨0.5, 50, 4⟩)⟩ =
      batchPredictCarbon (fun _ => some ⟨UserType.farmer⟩)
        (fun _ => Except.error "unused")
        ⟨some "t", some (List.replicate 101 ⟨0.5, 50, 4⟩)⟩ :=
  c8_batch_cap_rejects_before_compute (fun _ => some ⟨UserType.farmer⟩)
    predictCarbonSequestration (fun _ => Except.error "unused")
    ⟨some "t", some (List.replicate 101 ⟨0.5, 50, 4⟩)⟩ "t" ⟨UserType.farmer⟩
    (List.replicate 101 ⟨0.5, 50, 4⟩) rfl (by decide) rfl rfl rfl
    (by rw [List.length_replicate]; omega)

/-- C10: for an authenticated farmer request, a missing, non-array or
empty `predictions` field is rejected 400 before any prediction is
computed, and a request answered 200 carried between 1 and 100
elements. -/
theorem c10_batch_array_required
    (getUserByToken : String → Option User)
    (pred pred' : CarbonPredictionInput → Except String CarbonPredictionResult)
    (req : BatchRequest) (tk : String) (u : User)
    (htk : req.token = some tk) (hne : tk ≠ "")
    (hu : getUserByToken tk = some u) (hf : u.type = UserType.farmer) :
    ((req.predictions = none ∨ req.predictions = some []) →
      batchPredictCarbon getUserByToken pred req =
        ⟨400, false, some "Predictions array is required", none, none⟩
      ∧ batchPredictCarbon getUserByToken pred req =
          batchPredictCarbon getUserByToken pred' req)
    ∧ ((batchPredictCarbon getUserByToken pred req).status = 200 →
        ∃ l, req.predictions = some l ∧ 1 ≤ l.length ∧ l.length ≤ 100) := by
  constructor
  · intro hp
    have key : ∀ p : CarbonPredictionInput → Except String CarbonPredictionResult,
        batchPredictCarbon getUserByToken p req =
          ⟨400, false, some "Predictions array is required", none, none⟩ := by
      intro p
      rcases hp with hp | hp <;>
        simp only [batchPredictCarbon, htk, hu, hf, hp, if_neg hne,
          List.length_nil, if_true]
    exact ⟨key pred, (key pred).trans (key pred').symm⟩
  · intro h200
    rcases hq : req.predictions with _ | l
    · have hv : batchPredictCarbon getUserByToken pred req =
          ⟨400, false, some "Predictions array is required", none, none⟩ := by
        simp only [batchPredictCarbon, htk, hu, hf, hq, if_neg hne]
      rw [hv] at h200
      exact absurd h200 (by decide)
    · by_cases h0 : l.length = 0
      · have hv : batchPredictCarbon getUserByToken pred req =
            ⟨400, false, some "Predictions array is required", none, none⟩ := by
          simp only [batchPredictCarbon, htk, hu, hf, hq, if_neg hne, if_pos h0]
        rw [hv] at h200
        exact absurd h200 (by decide)
      · by_cases h100 : l.length > 100
        · have hv : batchPredictCarbon getUserByToken pred req =
              ⟨400, false, some "Maximum 100 predictions per batch", none, none⟩ := by
            simp only [batchPredictCarbon, htk, hu, hf, hq, if_neg hne,
              if_neg h0, if_pos h100]
          rw [hv] at h200
          exact absurd h200 (by decide)
        · exact ⟨l, rfl, by omega, by omega⟩

/-- Witness for C10: a request with a missing `predictions` field from an
authenticated farmer is rejected 400, identically for two predictors. -/
theorem c10_batch_array_required_witness :
    batchPredictCarbon (fun _ => some ⟨UserType.farmer⟩) predictCarbonSequestration
      ⟨some "t", none⟩ =
      ⟨400, false, some "Predictions array is required", none, none⟩
    ∧ batchPredictCarbon (fun _ => some ⟨UserType.farmer⟩) predictCarbonSequestration
        ⟨some "t", none⟩ =
      batchPredictCarbon (fun _ => some ⟨UserType.farmer⟩)
        (fun _ => Except.error "unused") ⟨some "t", none⟩ :=
  (c10_batch_array_required (fun _ => some ⟨UserType.farmer⟩)
    predictCarbonSequestration (fun _ => Except.error "unused")
    ⟨some "t", none⟩ "t" ⟨UserType.farmer⟩ rfl (by decide) rfl rfl).1 (Or.inl rfl)

end CarbonRoots
